import Mathlib

/-!
Shallow embedding of `e2e_tests/sklearn_parity.py`, the parity-verification
harness of the gboost repository.  The script loads two CSV files, fits an
external gradient-boosting classifier (the "oracle", sklearn's
`GradientBoostingClassifier`), scores train and test splits, and prints one
JSON object to stdout.

Modelling choices:
  * CSV cell values and labels are rationals (`ℚ`); the spec fixes all
    feature columns to be numeric and the iris labels are numeric class ids.
  * Python floats produced by `np.mean` are modelled by `PyFloat`, which is
    either a rational or `NaN` (`np.mean` of an empty array yields NaN).
  * The filesystem is a map from paths to optionally-present parsed tables;
    `pd.read_csv` on a missing path raises, modelled as a `fileAccess` error.
  * The external classifier is an abstract `Oracle` value with the
    capability set of §4.2 of the spec: `fit`, and on the fitted predictor
    `predict` and `predict_proba`.  The pipeline also returns a trace of
    the oracle invocations it performs, in source order.
  * Errors abort the run (Python exceptions), modelled with `Except`.
-/

abbrev FeatureMatrix := List (List ℚ)

abbrev Vec := List ℚ

/-- A parsed CSV table: header row plus data rows (`pd.read_csv` result). -/
structure Table where
  header : List String
  rows : List (List ℚ)
deriving DecidableEq

/-- The error classes of the run, following the spec taxonomy (§7).
`indexError` is the numpy IndexError raised by `[:, 1]` when the
probability matrix has fewer than two columns. -/
inductive PipeError
  | fileAccess
  | schemaError
  | indexError
  | emptySplit
deriving DecidableEq

/-- The constructor arguments of `GradientBoostingClassifier` that the
script passes (source lines 28–35). -/
structure Hyperparams where
  n_estimators : ℕ
  learning_rate : ℚ
  max_depth : ℕ
  min_samples_leaf : ℕ
  subsample : ℚ
  random_state : ℕ
deriving DecidableEq

/-- The exact hyperparameter record built at source lines 28–35
(`0.1` and `1.0` are the rationals 1/10 and 1). -/
def gbHyperparams : Hyperparams :=
  { n_estimators := 100
    learning_rate := 1/10
    max_depth := 3
    min_samples_leaf := 1
    subsample := 1
    random_state := 42 }

/-- A fitted predictor: the capability set the harness uses after `fit`. -/
structure Predictor where
  predict : FeatureMatrix → Vec
  predict_proba : FeatureMatrix → FeatureMatrix

/-- The external classifier oracle (spec §4.2): `fit` consumes the
hyperparameters and the train split and yields a fitted predictor. -/
structure Oracle where
  fit : Hyperparams → FeatureMatrix → Vec → Predictor

/-- One invocation of the oracle, recorded for the run trace. -/
inductive OracleCall
  | fitted (hp : Hyperparams) (X : FeatureMatrix) (y : Vec)
  | predicted (X : FeatureMatrix)
  | predictedProba (X : FeatureMatrix)
deriving DecidableEq

/-- Whether a trace entry is a `fit` invocation. -/
def OracleCall.isFitCall : OracleCall → Bool
  | .fitted _ _ _ => true
  | _ => false

/-- `os.path.join(data_dir, "iris_train.csv")` (source line 17). -/
def trainPath (dataDir : String) : String := dataDir ++ "/iris_train.csv"

/-- `os.path.join(data_dir, "iris_test.csv")` (source line 18). -/
def testPath (dataDir : String) : String := dataDir ++ "/iris_test.csv"

/-- `pd.read_csv`: missing file raises `FileNotFoundError` (FileAccess). -/
def read_csv (fs : String → Option Table) (path : String) : Except PipeError Table :=
  match fs path with
  | none => .error .fileAccess
  | some t => .ok t

/-- Index of the column named `label` in a header (pandas column lookup). -/
def labelIdx : List String → Option ℕ
  | [] => none
  | c :: cs => if c = "label" then some 0 else (labelIdx cs).map (· + 1)

/-- `df.drop(columns=["label"]).values` and `df["label"].values`
(source lines 23–26): removing the `label` column yields the feature
matrix, the column itself the label vector; a missing `label` column
raises `KeyError` (SchemaError). -/
def dropLabel (t : Table) : Except PipeError (FeatureMatrix × Vec) :=
  match labelIdx t.header with
  | none => .error .schemaError
  | some i => .ok (t.rows.map (fun r => r.eraseIdx i), t.rows.map (fun r => r.getD i 0))

/-- `proba[:, 1].tolist()` (source line 38): take entry 1 of every row;
a row with fewer than two entries raises numpy's IndexError. -/
def column1 : FeatureMatrix → Except PipeError Vec
  | [] => .ok []
  | r :: rs =>
    match r[1]? with
    | none => .error .indexError
    | some v =>
      match column1 rs with
      | .error e => .error e
      | .ok vs => .ok (v :: vs)

/-- A Python float as produced by `np.mean`: a number or NaN. -/
inductive PyFloat
  | nan
  | num (q : ℚ)
deriving DecidableEq

/-- Number of aligned positions where the two vectors agree
(the count of `True` in the numpy boolean array `a == b`). -/
def countWhereEq (a b : Vec) : ℕ := (a.zip b).countP (fun p => p.1 == p.2)

/-- `float(np.mean(a == b))` (source lines 40–41): the mean of the
elementwise-equality boolean array; `np.mean` of an empty array is NaN. -/
def meanEq (a b : Vec) : PyFloat :=
  if a.length = 0 then .nan else .num ((countWhereEq a b : ℚ) / (a.length : ℚ))

/-- The result dict built at source lines 43–48, in insertion order. -/
structure ResultRecord where
  test_probabilities : Vec
  test_predictions : Vec
  test_accuracy : PyFloat
  train_accuracy : PyFloat
deriving DecidableEq

/-- The whole run of `main` (source lines 12–49), from reading the two CSV
files through assembling the result dict.  Besides the result it returns
the trace of oracle invocations in source order: `fit` (line 36),
`predict_proba` (line 38), `predict` (lines 39, 40, 41). -/
def pipeline (oracle : Oracle) (fs : String → Option Table) (dataDir : String) :
    Except PipeError (ResultRecord × List OracleCall) :=
  match read_csv fs (trainPath dataDir) with
  | .error e => .error e
  | .ok train_df =>
    match read_csv fs (testPath dataDir) with
    | .error e => .error e
    | .ok test_df =>
      match dropLabel train_df with
      | .error e => .error e
      | .ok (X_train, y_train) =>
        match dropLabel test_df with
        | .error e => .error e
        | .ok (X_test, y_test) =>
          let clf := oracle.fit gbHyperparams X_train y_train
          match column1 (clf.predict_proba X_test) with
          | .error e => .error e
          | .ok test_probabilities =>
            .ok
              ({ test_probabilities := test_probabilities
                 test_predictions := clf.predict X_test
                 test_accuracy := meanEq (clf.predict X_test) y_test
                 train_accuracy := meanEq (clf.predict X_train) y_train },
               [OracleCall.fitted gbHyperparams X_train y_train,
                OracleCall.predictedProba X_test,
                OracleCall.predicted X_test,
                OracleCall.predicted X_test,
                OracleCall.predicted X_train])

/-- The run projected to its emitted result record. -/
def pipelineResult (oracle : Oracle) (fs : String → Option Table) (dataDir : String) :
    Except PipeError ResultRecord :=
  (pipeline oracle fs dataDir).map Prod.fst

/-- `"sep".join(pieces)`, as used by `json.dumps` to join items with
the default item separator. -/
def joinSep (sep : String) : List String → String
  | [] => ""
  | [x] => x
  | x :: y :: xs => x ++ sep ++ joinSep sep (y :: xs)

/-- How `json.dumps` renders one float value; `float('nan')` is emitted
as the token `NaN`.  The rendering of finite numbers is abstracted as a
parameter `nr`. -/
def renderPyFloat (nr : ℚ → String) : PyFloat → String
  | .nan => "NaN"
  | .num q => nr q

/-- A JSON value occurring in the result dict: a numeric array or a float. -/
inductive JVal
  | arr (l : Vec)
  | flt (f : PyFloat)

/-- Rendering of one JSON value with number renderer `nr`. -/
def renderJVal (nr : ℚ → String) : JVal → String
  | .arr l => "[" ++ joinSep ", " (l.map nr) ++ "]"
  | .flt f => renderPyFloat nr f

/-- The result dict as an ordered key/value list: Python dicts preserve
insertion order and `json.dumps` serializes keys in that order
(source lines 43–48). -/
def resultPairs (r : ResultRecord) : List (String × JVal) :=
  [("test_probabilities", .arr r.test_probabilities),
   ("test_predictions", .arr r.test_predictions),
   ("test_accuracy", .flt r.test_accuracy),
   ("train_accuracy", .flt r.train_accuracy)]

/-- `json.dumps(result)` with the default separators. -/
def jsonDumps (nr : ℚ → String) (pairs : List (String × JVal)) : String :=
  "\x7b" ++ joinSep ", " (pairs.map (fun p => "\"" ++ p.1 ++ "\": " ++ renderJVal nr p.2)) ++ "\x7d"

/-- `print(json.dumps(result))` (source line 49): the serialized object
followed by the single newline `print` appends. -/
def emitLine (nr : ℚ → String) (r : ResultRecord) : String :=
  jsonDumps nr (resultPairs r) ++ "\n"

/-- The run projected to the text written to stdout. -/
def pipelineOutput (nr : ℚ → String) (oracle : Oracle) (fs : String → Option Table)
    (dataDir : String) : Except PipeError String :=
  (pipelineResult oracle fs dataDir).map (emitLine nr)

/-- A string containing no newline character. -/
def noNewline (s : String) : Prop := ∀ c ∈ s.data, c ≠ '\n'

/-- `noNewline` is decidable, so concrete strings can be checked. -/
instance (s : String) : Decidable (noNewline s) :=
  inferInstanceAs (Decidable (∀ c ∈ s.data, c ≠ '\n'))

/-- A concrete oracle satisfying the §4.2 collaborator contract, used to
instantiate theorems: it predicts class 0 for every row and assigns the
whole probability mass to column 1. -/
def exOracle : Oracle :=
  ⟨fun _hp _X _y =>
    { predict := fun X => X.map (fun _ => 0)
      predict_proba := fun X => X.map (fun _ => [0, 1]) }⟩

/-- A one-row train table with two feature columns and a label column. -/
def exTrain : Table := ⟨["f1", "f2", "label"], [[1, 2, 0]]⟩

/-- A one-row test table matching `exTrain`'s columns. -/
def exTest : Table := ⟨["f1", "f2", "label"], [[5, 6, 0]]⟩

/-- A zero-row test table (header only). -/
def exTestEmpty : Table := ⟨["f1", "f2", "label"], []⟩

/-- A test table whose header has no `label` column. -/
def exTestNoLabel : Table := ⟨["f1", "f2"], [[5, 6]]⟩

/-- A train table with feature columns `a`, `b`. -/
def exTrainAB : Table := ⟨["a", "b", "label"], [[1, 2, 0]]⟩

/-- A test table with feature columns `c`, `d`: its column set is disjoint
from `exTrainAB`'s feature columns. -/
def exTestCD : Table := ⟨["c", "d", "label"], [[7, 8, 0]]⟩

/-- A filesystem holding both well-formed input files under directory `d`. -/
def exFs : String → Option Table := fun p =>
  if p = "d/iris_train.csv" then some exTrain
  else if p = "d/iris_test.csv" then some exTest
  else none

/-- Like `exFs` but the test file has zero data rows. -/
def exFsEmptyTest : String → Option Table := fun p =>
  if p = "d/iris_train.csv" then some exTrain
  else if p = "d/iris_test.csv" then some exTestEmpty
  else none

/-- Like `exFs` but the test file has no `label` column. -/
def exFsNoLabel : String → Option Table := fun p =>
  if p = "d/iris_train.csv" then some exTrain
  else if p = "d/iris_test.csv" then some exTestNoLabel
  else none

/-- Train and test files whose column sets do not match. -/
def exFsMismatch : String → Option Table := fun p =>
  if p = "d/iris_train.csv" then some exTrainAB
  else if p = "d/iris_test.csv" then some exTestCD
  else none

/-- The result record of the run on `exOracle`/`exFs`. -/
def exR : ResultRecord := ⟨[1], [0], .num 1, .num 1⟩

/-- The oracle-call trace of the run on `exOracle`/`exFs`. -/
def exTrace : List OracleCall :=
  [.fitted gbHyperparams [[1, 2]] [0],
   .predictedProba [[5, 6]],
   .predicted [[5, 6]],
   .predicted [[5, 6]],
   .predicted [[1, 2]]]

/-- The spec's description of accuracy (§4.3): the fraction of rows on
which the predictions agree with the true labels. -/
def specMatchFraction (pred labels : Vec) : ℚ :=
  (countWhereEq pred labels : ℚ) / (labels.length : ℚ)

/-- Membership of a Python float in the closed interval [0, 1];
NaN lies outside every interval. -/
def PyFloat.inUnit : PyFloat → Prop
  | .nan => False
  | .num q => 0 ≤ q ∧ q ≤ 1

/-- `inUnit` is decidable, so concrete floats can be checked. -/
instance (f : PyFloat) : Decidable f.inUnit :=
  match f with
  | .nan => isFalse id
  | .num q => inferInstanceAs (Decidable (0 ≤ q ∧ q ≤ 1))

/-- A filesystem holding only the train file: the test file is missing. -/
def exFsNoTest : String → Option Table := fun p =>
  if p = "d/iris_train.csv" then some exTrain else none

/-- The result record of the run on `exOracle`/`exFsEmptyTest`: the empty
test split silently receives NaN accuracy. -/
def exREmpty : ResultRecord := ⟨[], [], .nan, .num 1⟩

/-- The oracle-call trace of the run on `exOracle`/`exFsEmptyTest`. -/
def exTraceEmpty : List OracleCall :=
  [.fitted gbHyperparams [[1, 2]] [0],
   .predictedProba [],
   .predicted [],
   .predicted [],
   .predicted [[1, 2]]]

/-- `labelIdx` finds nothing when no column is named `label`. -/
theorem labelIdx_eq_none {l : List String} (h : "label" ∉ l) : labelIdx l = none := by
  induction l with
  | nil => rfl
  | cons c cs ih =>
    have hc : c ≠ "label" := fun hc => h (hc ▸ List.mem_cons_self c cs)
    have hcs : "label" ∉ cs := fun hm => h (List.mem_cons_of_mem c hm)
    simp [labelIdx, hc, ih hcs]

/-- A table without a `label` column makes `dropLabel` raise SchemaError. -/
theorem dropLabel_schemaError {t : Table} (h : "label" ∉ t.header) :
    dropLabel t = .error .schemaError := by
  simp [dropLabel, labelIdx_eq_none h]

/-- A successful `dropLabel` yields a feature matrix and a label vector
with one entry per table row. -/
theorem dropLabel_lengths {t : Table} {X : FeatureMatrix} {y : Vec}
    (h : dropLabel t = .ok (X, y)) :
    X.length = t.rows.length ∧ y.length = t.rows.length := by
  unfold dropLabel at h
  cases hl : labelIdx t.header with
  | none => rw [hl] at h; exact absurd h (by simp)
  | some i =>
    rw [hl] at h
    simp only [Except.ok.injEq, Prod.mk.injEq] at h
    obtain ⟨hX, hy⟩ := h
    subst hX; subst hy
    simp

/-- A successful `column1` extraction has one entry per matrix row. -/
theorem column1_length : ∀ {m : FeatureMatrix} {v : Vec}, column1 m = .ok v → v.length = m.length := by
  intro m
  induction m with
  | nil =>
    intro v h
    unfold column1 at h
    simp only [Except.ok.injEq] at h
    subst h; rfl
  | cons r rs ih =>
    intro v h
    unfold column1 at h
    cases hr : r[1]? with
    | none => rw [hr] at h; exact absurd h (by simp)
    | some x =>
      rw [hr] at h
      cases hc : column1 rs with
      | error e => rw [hc] at h; exact absurd h (by simp)
      | ok vs =>
        rw [hc] at h
        simp only [Except.ok.injEq] at h
        subst h
        simp [ih hc]

/-- The number of agreeing positions is at most the first vector's length. -/
theorem countWhereEq_le (a b : Vec) : countWhereEq a b ≤ a.length :=
  le_trans (List.countP_le_length _) (by rw [List.length_zip a b]; exact min_le_left _ _)

/-- Inversion of a successful run: both files were present, both tables had
a `label` column, probability extraction succeeded, and the result record
and trace are exactly those assembled at source lines 43–49. -/
theorem pipeline_ok_inv {oracle : Oracle} {fs : String → Option Table} {d : String}
    {r : ResultRecord} {tr : List OracleCall}
    (hrun : pipeline oracle fs d = .ok (r, tr)) :
    ∃ tTr tTe Xtr ytr Xte yte probs,
      fs (trainPath d) = some tTr ∧
      fs (testPath d) = some tTe ∧
      dropLabel tTr = .ok (Xtr, ytr) ∧
      dropLabel tTe = .ok (Xte, yte) ∧
      column1 ((oracle.fit gbHyperparams Xtr ytr).predict_proba Xte) = .ok probs ∧
      r = { test_probabilities := probs
            test_predictions := (oracle.fit gbHyperparams Xtr ytr).predict Xte
            test_accuracy := meanEq ((oracle.fit gbHyperparams Xtr ytr).predict Xte) yte
            train_accuracy := meanEq ((oracle.fit gbHyperparams Xtr ytr).predict Xtr) ytr } ∧
      tr = [OracleCall.fitted gbHyperparams Xtr ytr,
            OracleCall.predictedProba Xte,
            OracleCall.predicted Xte,
            OracleCall.predicted Xte,
            OracleCall.predicted Xtr] := by
  unfold pipeline read_csv at hrun
  cases h1 : fs (trainPath d) with
  | none => rw [h1] at hrun; exact absurd hrun (by simp)
  | some tTr =>
  rw [h1] at hrun
  dsimp only at hrun
  cases h2 : fs (testPath d) with
  | none => rw [h2] at hrun; exact absurd hrun (by simp)
  | some tTe =>
  rw [h2] at hrun
  dsimp only at hrun
  cases h3 : dropLabel tTr with
  | error e => rw [h3] at hrun; exact absurd hrun (by simp)
  | ok ptr =>
  obtain ⟨Xtr, ytr⟩ := ptr
  rw [h3] at hrun
  dsimp only at hrun
  cases h4 : dropLabel tTe with
  | error e => rw [h4] at hrun; exact absurd hrun (by simp)
  | ok pte =>
  obtain ⟨Xte, yte⟩ := pte
  rw [h4] at hrun
  dsimp only at hrun
  cases h5 : column1 ((oracle.fit gbHyperparams Xtr ytr).predict_proba Xte) with
  | error e => rw [h5] at hrun; exact absurd hrun (by simp)
  | ok probs =>
  rw [h5] at hrun
  dsimp only at hrun
  simp only [Except.ok.injEq, Prod.mk.injEq] at hrun
  obtain ⟨hr, htr2⟩ := hrun
  subst hr; subst htr2
  exact ⟨tTr, tTe, Xtr, ytr, Xte, yte, probs, rfl, rfl, h3, h4, h5, rfl, rfl⟩

/-- Concatenation of newline-free strings is newline-free. -/
theorem noNewline_append {a b : String} (ha : noNewline a) (hb : noNewline b) :
    noNewline (a ++ b) := by
  intro c hc
  rw [String.data_append] at hc
  rcases List.mem_append.mp hc with h | h
  · exact ha c h
  · exact hb c h

/-- Joining newline-free pieces with a newline-free separator is
newline-free. -/
theorem noNewline_joinSep {sep : String} (hs : noNewline sep) :
    ∀ {l : List String}, (∀ s ∈ l, noNewline s) → noNewline (joinSep sep l) := by
  intro l
  induction l with
  | nil => intro _; exact (by decide : noNewline "")
  | cons x xs ih =>
    intro hl
    cases xs with
    | nil => simpa [joinSep] using hl x (by simp)
    | cons y ys =>
      rw [joinSep]
      exact noNewline_append (noNewline_append (hl x (by simp)) hs)
        (ih (fun s hsm => hl s (List.mem_cons_of_mem x hsm)))

/-- With a newline-free number renderer, any rendered JSON value is
newline-free. -/
theorem noNewline_renderJVal {nr : ℚ → String} (hnr : ∀ q, noNewline (nr q)) :
    ∀ v : JVal, noNewline (renderJVal nr v) := by
  intro v
  cases v with
  | arr l =>
    rw [renderJVal]
    refine noNewline_append (noNewline_append (by decide) ?_) (by decide)
    refine noNewline_joinSep (by decide) ?_
    intro s hs
    obtain ⟨q, _, hq⟩ := List.mem_map.mp hs
    exact hq ▸ hnr q
  | flt f =>
    cases f with
    | nan => exact (by decide : noNewline "NaN")
    | num q => exact hnr q

/-- On a nonempty prediction vector, `np.mean` computes exactly the
agreement fraction described by the spec (denominator rewritten through
the equal lengths of predictions and labels). -/
theorem meanEq_eq_spec {a b : Vec} (hlen : a.length = b.length) (h : b.length ≠ 0) :
    meanEq a b = .num (specMatchFraction a b) := by
  unfold meanEq specMatchFraction
  rw [if_neg (by rw [hlen]; exact h), hlen]

/-- On a nonempty prediction vector, the mean agreement lies in [0, 1]. -/
theorem meanEq_inUnit {a b : Vec} (h : a.length ≠ 0) : (meanEq a b).inUnit := by
  unfold meanEq
  rw [if_neg h]
  refine ⟨div_nonneg (Nat.cast_nonneg _) (Nat.cast_nonneg _), ?_⟩
  rw [div_le_one (by exact_mod_cast Nat.pos_of_ne_zero h)]
  exact_mod_cast countWhereEq_le a b

/-- `exOracle.predict` returns one prediction per input row. -/
theorem exOracle_predict_length :
    ∀ hp X y X2, ((exOracle.fit hp X y).predict X2).length = X2.length := by
  intro hp X y X2
  simp [exOracle]

/-- `exOracle.predict_proba` returns one probability row per input row. -/
theorem exOracle_proba_length :
    ∀ hp X y X2, ((exOracle.fit hp X y).predict_proba X2).length = X2.length := by
  intro hp X y X2
  simp [exOracle]

/-- Evaluation of the run on the well-formed concrete inputs. -/
theorem pipeline_exFs_eval : pipeline exOracle exFs "d" = .ok (exR, exTrace) := by
  simp [pipeline, read_csv, exFs, trainPath, testPath, dropLabel, labelIdx, exTrain, exTest,
    exOracle, column1, meanEq, countWhereEq, exR, exTrace, gbHyperparams]

/-- Evaluation of the run whose test split has zero rows: it succeeds and
the test accuracy is NaN. -/
theorem pipeline_exFsEmptyTest_eval :
    pipeline exOracle exFsEmptyTest "d" = .ok (exREmpty, exTraceEmpty) := by
  simp [pipeline, read_csv, exFsEmptyTest, trainPath, testPath, dropLabel, labelIdx, exTrain,
    exTestEmpty, exOracle, column1, meanEq, countWhereEq, exREmpty, exTraceEmpty, gbHyperparams]

/-- Claim C1: for every pair of identical input files, running the
pipeline twice yields byte-identical JSON output on standard output: the
run is a pure function of the oracle, the filesystem and the data
directory (the fixed seed 42 is part of `gbHyperparams`), so equal inputs
give equal output text. -/
theorem pipeline_deterministic (nr : ℚ → String) (oracle : Oracle)
    (fs1 fs2 : String → Option Table) (d : String) (h : fs1 = fs2) :
    pipelineOutput nr oracle fs1 d = pipelineOutput nr oracle fs2 d := by
  rw [h]

/-- Witness for C1 at the concrete inputs. -/
theorem pipeline_deterministic_witness :
    exFs = exFs ∧
    pipelineOutput (fun _ => "0") exOracle exFs "d" =
      pipelineOutput (fun _ => "0") exOracle exFs "d" :=
  ⟨rfl, pipeline_deterministic (fun _ => "0") exOracle exFs exFs "d" rfl⟩

/-- Claim C9: if either input file (`iris_train.csv` or `iris_test.csv`,
and in particular the whole data directory) is missing, the run aborts
with a FileAccess-class failure and produces no stdout JSON. -/
theorem missing_file_aborts_fileAccess (oracle : Oracle) (fs : String → Option Table)
    (d : String) (h : fs (trainPath d) = none ∨ fs (testPath d) = none) :
    pipeline oracle fs d = .error .fileAccess ∧
    ∀ nr, pipelineOutput nr oracle fs d = .error .fileAccess := by
  have hp : pipeline oracle fs d = .error .fileAccess := by
    rcases h with h | h
    · simp [pipeline, read_csv, h]
    · cases htr : fs (trainPath d) with
      | none => simp [pipeline, read_csv, htr]
      | some t => simp [pipeline, read_csv, htr, h]
  exact ⟨hp, fun nr => by simp [pipelineOutput, pipelineResult, hp, Except.map]⟩

/-- Witness for C9: the filesystem that lacks the test file. -/
theorem missing_file_aborts_fileAccess_witness :
    (exFsNoTest (trainPath "d") = none ∨ exFsNoTest (testPath "d") = none) ∧
    (pipeline exOracle exFsNoTest "d" = .error .fileAccess ∧
     ∀ nr, pipelineOutput nr exOracle exFsNoTest "d" = .error .fileAccess) :=
  ⟨Or.inr (by simp [exFsNoTest, testPath]),
   missing_file_aborts_fileAccess exOracle exFsNoTest "d" (Or.inr (by simp [exFsNoTest, testPath]))⟩

/-- Counterexample to claim C8 as stated: the train file has feature
columns `a`, `b` and the test file has feature columns `c`, `d`, so the
column sets of the two files mismatch, yet the run does not abort: it
succeeds and emits a result. -/
theorem column_mismatch_not_detected_cex :
    pipelineResult exOracle exFsMismatch "d" = .ok ⟨[1], [0], .num 1, .num 1⟩ := by
  simp [pipelineResult, pipeline, read_csv, exFsMismatch, trainPath, testPath, dropLabel,
    labelIdx, exTrainAB, exTestCD, exOracle, column1, meanEq, countWhereEq, Except.map]

/-- Claim C8 (amended): if the `label` column is absent from the header of
either input file, the run aborts with a SchemaError-class failure and
produces no output; mismatched train/test column sets are not themselves
detected by the harness. -/
theorem label_absent_aborts_schemaError (oracle : Oracle) (fs : String → Option Table)
    (d : String) (tTr tTe : Table)
    (htr : fs (trainPath d) = some tTr) (hte : fs (testPath d) = some tTe)
    (h : "label" ∉ tTr.header ∨ "label" ∉ tTe.header) :
    pipeline oracle fs d = .error .schemaError ∧
    ∀ nr, pipelineOutput nr oracle fs d = .error .schemaError := by
  have hp : pipeline oracle fs d = .error .schemaError := by
    rcases h with h | h
    · simp [pipeline, read_csv, htr, hte, dropLabel_schemaError h]
    · cases hidx : labelIdx tTr.header with
      | none => simp [pipeline, read_csv, htr, hte, dropLabel, hidx]
      | some i => simp [pipeline, read_csv, htr, hte, dropLabel, hidx, labelIdx_eq_none h]
  exact ⟨hp, fun nr => by simp [pipelineOutput, pipelineResult, hp, Except.map]⟩

/-- Witness for C8 (amended): the test file whose header lacks `label`. -/
theorem label_absent_aborts_schemaError_witness :
    exFsNoLabel (trainPath "d") = some exTrain ∧
    exFsNoLabel (testPath "d") = some exTestNoLabel ∧
    ("label" ∉ exTrainAB.header ∨ "label" ∉ exTestNoLabel.header) ∧
    (pipeline exOracle exFsNoLabel "d" = .error .schemaError ∧
     ∀ nr, pipelineOutput nr exOracle exFsNoLabel "d" = .error .schemaError) :=
  ⟨by simp [exFsNoLabel, trainPath],
   by simp [exFsNoLabel, testPath],
   Or.inr (by decide),
   label_absent_aborts_schemaError exOracle exFsNoLabel "d" exTrain exTestNoLabel
     (by simp [exFsNoLabel, trainPath]) (by simp [exFsNoLabel, testPath])
     (Or.inr (by decide))⟩

/-- Claim C3: on every run that reaches the classifier, the oracle is
constructed and fit exactly once, on the train split only, and with
exactly the fixed hyperparameters of source lines 28–35: ensemble size
100, learning rate 1/10, max tree depth 3, minimum samples per leaf 1,
subsample fraction 1, random seed 42.  The trace of a successful run
contains exactly one fit invocation, and it receives `gbHyperparams`
and the train features and labels; no other classifier configuration
exists in the code. -/
theorem fit_once_with_fixed_hyperparams (oracle : Oracle) (fs : String → Option Table)
    (d : String) (r : ResultRecord) (tr : List OracleCall) (tTr : Table)
    (Xtr : FeatureMatrix) (ytr : Vec)
    (htr : fs (trainPath d) = some tTr)
    (hdtr : dropLabel tTr = .ok (Xtr, ytr))
    (hrun : pipeline oracle fs d = .ok (r, tr)) :
    tr.filter OracleCall.isFitCall = [OracleCall.fitted gbHyperparams Xtr ytr] ∧
    gbHyperparams.n_estimators = 100 ∧
    gbHyperparams.learning_rate = 1/10 ∧
    gbHyperparams.max_depth = 3 ∧
    gbHyperparams.min_samples_leaf = 1 ∧
    gbHyperparams.subsample = 1 ∧
    gbHyperparams.random_state = 42 := by
  obtain ⟨tTr', tTe', Xtr', ytr', Xte', yte', probs, h1, h2, h3, h4, h5, hr, htrace⟩ :=
    pipeline_ok_inv hrun
  rw [htr] at h1
  injection h1 with h1
  subst h1
  rw [hdtr] at h3
  injection h3 with h3
  injection h3 with h3a h3b
  subst h3a
  subst h3b
  subst htrace
  exact ⟨by simp [OracleCall.isFitCall], rfl, rfl, rfl, rfl, rfl, rfl⟩

/-- Witness for C3 at the concrete run. -/
theorem fit_once_with_fixed_hyperparams_witness :
    exFs (trainPath "d") = some exTrain ∧
    dropLabel exTrain = .ok ([[1, 2]], [0]) ∧
    pipeline exOracle exFs "d" = .ok (exR, exTrace) ∧
    (exTrace.filter OracleCall.isFitCall = [OracleCall.fitted gbHyperparams [[1, 2]] [0]] ∧
     gbHyperparams.n_estimators = 100 ∧
     gbHyperparams.learning_rate = 1/10 ∧
     gbHyperparams.max_depth = 3 ∧
     gbHyperparams.min_samples_leaf = 1 ∧
     gbHyperparams.subsample = 1 ∧
     gbHyperparams.random_state = 42) :=
  ⟨by simp [exFs, trainPath], rfl, pipeline_exFs_eval,
   fit_once_with_fixed_hyperparams exOracle exFs "d" exR exTrace exTrain [[1, 2]] [0]
     (by simp [exFs, trainPath]) rfl pipeline_exFs_eval⟩

/-- Claim C5: on every successful run, the emitted `test_probabilities`
equals column index 1 of the predictor's `predict_proba` output on the
test feature matrix, converted to a plain numeric sequence. -/
theorem probabilities_are_column1 (oracle : Oracle) (fs : String → Option Table)
    (d : String) (r : ResultRecord) (tr : List OracleCall) (tTr tTe : Table)
    (Xtr Xte : FeatureMatrix) (ytr yte : Vec)
    (htr : fs (trainPath d) = some tTr) (hte : fs (testPath d) = some tTe)
    (hdtr : dropLabel tTr = .ok (Xtr, ytr)) (hdte : dropLabel tTe = .ok (Xte, yte))
    (hrun : pipeline oracle fs d = .ok (r, tr)) :
    column1 ((oracle.fit gbHyperparams Xtr ytr).predict_proba Xte) = .ok r.test_probabilities := by
  obtain ⟨tTr', tTe', Xtr', ytr', Xte', yte', probs, h1, h2, h3, h4, h5, hr, htrace⟩ :=
    pipeline_ok_inv hrun
  rw [htr] at h1
  injection h1 with h1
  subst h1
  rw [hte] at h2
  injection h2 with h2
  subst h2
  rw [hdtr] at h3
  injection h3 with h3
  injection h3 with h3a h3b
  subst h3a
  subst h3b
  rw [hdte] at h4
  injection h4 with h4
  injection h4 with h4a h4b
  subst h4a
  subst h4b
  subst hr
  exact h5

/-- Witness for C5 at the concrete run. -/
theorem probabilities_are_column1_witness :
    exFs (trainPath "d") = some exTrain ∧
    exFs (testPath "d") = some exTest ∧
    dropLabel exTrain = .ok ([[1, 2]], [0]) ∧
    dropLabel exTest = .ok ([[5, 6]], [0]) ∧
    pipeline exOracle exFs "d" = .ok (exR, exTrace) ∧
    column1 ((exOracle.fit gbHyperparams [[1, 2]] [0]).predict_proba [[5, 6]]) =
      .ok exR.test_probabilities :=
  ⟨by simp [exFs, trainPath], by simp [exFs, testPath], rfl, rfl, pipeline_exFs_eval,
   probabilities_are_column1 exOracle exFs "d" exR exTrace exTrain exTest [[1, 2]] [[5, 6]]
     [0] [0] (by simp [exFs, trainPath]) (by simp [exFs, testPath]) rfl rfl pipeline_exFs_eval⟩

/-- Claim C2: for every valid train/test split pair (both files present,
both with at least one row, oracle honouring the §4.2 shape contract),
a successful run emits a JSON object with exactly the four keys
`test_probabilities`, `test_predictions`, `test_accuracy`,
`train_accuracy`, and the two sequences have length equal to the number
of test rows. -/
theorem output_schema_and_lengths (oracle : Oracle) (fs : String → Option Table)
    (d : String) (r : ResultRecord) (tr : List OracleCall) (tTr tTe : Table)
    (hlen : ∀ hp X y X2, ((oracle.fit hp X y).predict X2).length = X2.length)
    (hlenp : ∀ hp X y X2, ((oracle.fit hp X y).predict_proba X2).length = X2.length)
    (htr : fs (trainPath d) = some tTr) (hte : fs (testPath d) = some tTe)
    (_hner : tTr.rows ≠ []) (_hnee : tTe.rows ≠ [])
    (hrun : pipeline oracle fs d = .ok (r, tr)) :
    (resultPairs r).map Prod.fst =
      ["test_probabilities", "test_predictions", "test_accuracy", "train_accuracy"] ∧
    r.test_predictions.length = tTe.rows.length ∧
    r.test_probabilities.length = tTe.rows.length := by
  obtain ⟨tTr', tTe', Xtr', ytr', Xte', yte', probs, h1, h2, h3, h4, h5, hr, htrace⟩ :=
    pipeline_ok_inv hrun
  rw [htr] at h1
  injection h1 with h1
  subst h1
  rw [hte] at h2
  injection h2 with h2
  subst h2
  subst hr
  obtain ⟨hX4, hy4⟩ := dropLabel_lengths h4
  refine ⟨rfl, ?_, ?_⟩
  · dsimp only
    rw [hlen, hX4]
  · dsimp only
    rw [column1_length h5, hlenp, hX4]

/-- Witness for C2 at the concrete run. -/
theorem output_schema_and_lengths_witness :
    (∀ hp X y X2, ((exOracle.fit hp X y).predict X2).length = X2.length) ∧
    (∀ hp X y X2, ((exOracle.fit hp X y).predict_proba X2).length = X2.length) ∧
    exFs (trainPath "d") = some exTrain ∧
    exFs (testPath "d") = some exTest ∧
    exTrain.rows ≠ [] ∧
    exTest.rows ≠ [] ∧
    pipeline exOracle exFs "d" = .ok (exR, exTrace) ∧
    ((resultPairs exR).map Prod.fst =
       ["test_probabilities", "test_predictions", "test_accuracy", "train_accuracy"] ∧
     exR.test_predictions.length = exTest.rows.length ∧
     exR.test_probabilities.length = exTest.rows.length) :=
  ⟨exOracle_predict_length, exOracle_proba_length,
   by simp [exFs, trainPath], by simp [exFs, testPath], by decide, by decide,
   pipeline_exFs_eval,
   output_schema_and_lengths exOracle exFs "d" exR exTrace exTrain exTest
     exOracle_predict_length exOracle_proba_length
     (by simp [exFs, trainPath]) (by simp [exFs, testPath])
     (by decide) (by decide) pipeline_exFs_eval⟩

/-- Claim C4: on every successful run with nonempty splits (and an oracle
honouring the §4.2 shape contract), `test_accuracy` is exactly the
fraction of test rows where the predictor's prediction on the test
features equals the true test label, and `train_accuracy` is the same
fraction over the train split. -/
theorem accuracies_are_match_fractions (oracle : Oracle) (fs : String → Option Table)
    (d : String) (r : ResultRecord) (tr : List OracleCall) (tTr tTe : Table)
    (Xtr Xte : FeatureMatrix) (ytr yte : Vec)
    (hlen : ∀ hp X y X2, ((oracle.fit hp X y).predict X2).length = X2.length)
    (htr : fs (trainPath d) = some tTr) (hte : fs (testPath d) = some tTe)
    (hdtr : dropLabel tTr = .ok (Xtr, ytr)) (hdte : dropLabel tTe = .ok (Xte, yte))
    (hner : tTr.rows ≠ []) (hnee : tTe.rows ≠ [])
    (hrun : pipeline oracle fs d = .ok (r, tr)) :
    r.test_accuracy =
      .num (specMatchFraction ((oracle.fit gbHyperparams Xtr ytr).predict Xte) yte) ∧
    r.train_accuracy =
      .num (specMatchFraction ((oracle.fit gbHyperparams Xtr ytr).predict Xtr) ytr) := by
  obtain ⟨tTr', tTe', Xtr', ytr', Xte', yte', probs, h1, h2, h3, h4, h5, hr, htrace⟩ :=
    pipeline_ok_inv hrun
  rw [htr] at h1
  injection h1 with h1
  subst h1
  rw [hte] at h2
  injection h2 with h2
  subst h2
  rw [hdtr] at h3
  injection h3 with h3
  injection h3 with h3a h3b
  subst h3a
  subst h3b
  rw [hdte] at h4
  injection h4 with h4
  injection h4 with h4a h4b
  subst h4a
  subst h4b
  subst hr
  obtain ⟨hXte, hyte⟩ := dropLabel_lengths hdte
  obtain ⟨hXtr, hytr⟩ := dropLabel_lengths hdtr
  have hte0 : yte.length ≠ 0 := by
    rw [hyte]
    exact fun h0 => hnee (List.length_eq_zero.mp h0)
  have htr0 : ytr.length ≠ 0 := by
    rw [hytr]
    exact fun h0 => hner (List.length_eq_zero.mp h0)
  constructor
  · dsimp only
    exact meanEq_eq_spec (by rw [hlen, hXte, hyte]) hte0
  · dsimp only
    exact meanEq_eq_spec (by rw [hlen, hXtr, hytr]) htr0

/-- Witness for C4 at the concrete run. -/
theorem accuracies_are_match_fractions_witness :
    (∀ hp X y X2, ((exOracle.fit hp X y).predict X2).length = X2.length) ∧
    exFs (trainPath "d") = some exTrain ∧
    exFs (testPath "d") = some exTest ∧
    dropLabel exTrain = .ok ([[1, 2]], [0]) ∧
    dropLabel exTest = .ok ([[5, 6]], [0]) ∧
    exTrain.rows ≠ [] ∧
    exTest.rows ≠ [] ∧
    pipeline exOracle exFs "d" = .ok (exR, exTrace) ∧
    (exR.test_accuracy =
       .num (specMatchFraction ((exOracle.fit gbHyperparams [[1, 2]] [0]).predict [[5, 6]]) [0]) ∧
     exR.train_accuracy =
       .num (specMatchFraction ((exOracle.fit gbHyperparams [[1, 2]] [0]).predict [[1, 2]]) [0])) :=
  ⟨exOracle_predict_length, by simp [exFs, trainPath], by simp [exFs, testPath], rfl, rfl,
   by decide, by decide, pipeline_exFs_eval,
   accuracies_are_match_fractions exOracle exFs "d" exR exTrace exTrain exTest
     [[1, 2]] [[5, 6]] [0] [0] exOracle_predict_length
     (by simp [exFs, trainPath]) (by simp [exFs, testPath]) rfl rfl
     (by decide) (by decide) pipeline_exFs_eval⟩

/-- Counterexample to claim C6 as stated: with the test split holding zero
rows, the run does not fail with an EmptySplit error (no such check
exists in the code); it succeeds and silently emits NaN test accuracy. -/
theorem empty_split_no_error_cex :
    exTestEmpty.rows = [] ∧
    pipeline exOracle exFsEmptyTest "d" ≠ .error .emptySplit ∧
    pipelineResult exOracle exFsEmptyTest "d" = .ok exREmpty ∧
    exREmpty.test_accuracy = .nan :=
  ⟨rfl,
   by rw [pipeline_exFsEmptyTest_eval]; intro h; exact Except.noConfusion h,
   by unfold pipelineResult; rw [pipeline_exFsEmptyTest_eval]; rfl,
   rfl⟩

/-- Claim C6 (amended): the harness performs no zero-row check.  If the
test split has zero rows and the oracle accepts the empty matrix, the run
succeeds and `test_accuracy` is silently NaN instead of an EmptySplit
error; a failure could only originate inside the oracle. -/
theorem empty_test_split_yields_nan (oracle : Oracle) (fs : String → Option Table)
    (d : String) (r : ResultRecord) (tr : List OracleCall) (tTr tTe : Table)
    (Xtr Xte : FeatureMatrix) (ytr yte : Vec)
    (hlen : ∀ hp X y X2, ((oracle.fit hp X y).predict X2).length = X2.length)
    (htr : fs (trainPath d) = some tTr) (hte : fs (testPath d) = some tTe)
    (hdtr : dropLabel tTr = .ok (Xtr, ytr)) (hdte : dropLabel tTe = .ok (Xte, yte))
    (hempty : tTe.rows = [])
    (hrun : pipeline oracle fs d = .ok (r, tr)) :
    r.test_accuracy = .nan := by
  obtain ⟨tTr', tTe', Xtr', ytr', Xte', yte', probs, h1, h2, h3, h4, h5, hr, htrace⟩ :=
    pipeline_ok_inv hrun
  rw [htr] at h1
  injection h1 with h1
  subst h1
  rw [hte] at h2
  injection h2 with h2
  subst h2
  rw [hdtr] at h3
  injection h3 with h3
  injection h3 with h3a h3b
  subst h3a
  subst h3b
  rw [hdte] at h4
  injection h4 with h4
  injection h4 with h4a h4b
  subst h4a
  subst h4b
  subst hr
  dsimp only
  have hx : Xte.length = 0 := by
    rw [(dropLabel_lengths hdte).1, hempty]
    rfl
  unfold meanEq
  rw [if_pos (by rw [hlen, hx])]

/-- Witness for C6 (amended) at the concrete empty-test run. -/
theorem empty_test_split_yields_nan_witness :
    (∀ hp X y X2, ((exOracle.fit hp X y).predict X2).length = X2.length) ∧
    exFsEmptyTest (trainPath "d") = some exTrain ∧
    exFsEmptyTest (testPath "d") = some exTestEmpty ∧
    dropLabel exTrain = .ok ([[1, 2]], [0]) ∧
    dropLabel exTestEmpty = .ok ([], []) ∧
    exTestEmpty.rows = [] ∧
    pipeline exOracle exFsEmptyTest "d" = .ok (exREmpty, exTraceEmpty) ∧
    exREmpty.test_accuracy = .nan :=
  ⟨exOracle_predict_length, by simp [exFsEmptyTest, trainPath], by simp [exFsEmptyTest, testPath],
   rfl, rfl, rfl, pipeline_exFsEmptyTest_eval,
   empty_test_split_yields_nan exOracle exFsEmptyTest "d" exREmpty exTraceEmpty
     exTrain exTestEmpty [[1, 2]] [] [0] [] exOracle_predict_length
     (by simp [exFsEmptyTest, trainPath]) (by simp [exFsEmptyTest, testPath])
     rfl rfl rfl pipeline_exFsEmptyTest_eval⟩

/-- Counterexample to claim C7 as stated: the empty-test run emits output
whose `test_accuracy` is NaN, which lies outside [0, 1]. -/
theorem accuracy_nan_outside_unit_cex :
    pipelineResult exOracle exFsEmptyTest "d" = .ok exREmpty ∧
    ¬ exREmpty.test_accuracy.inUnit :=
  ⟨by unfold pipelineResult; rw [pipeline_exFsEmptyTest_eval]; rfl, fun h => h⟩

/-- Claim C7 (amended): for every run that emits output and whose splits
each have at least one row, `test_accuracy` and `train_accuracy` lie in
[0.0, 1.0]. -/
theorem accuracies_in_unit_interval (oracle : Oracle) (fs : String → Option Table)
    (d : String) (r : ResultRecord) (tr : List OracleCall) (tTr tTe : Table)
    (Xtr Xte : FeatureMatrix) (ytr yte : Vec)
    (hlen : ∀ hp X y X2, ((oracle.fit hp X y).predict X2).length = X2.length)
    (htr : fs (trainPath d) = some tTr) (hte : fs (testPath d) = some tTe)
    (hdtr : dropLabel tTr = .ok (Xtr, ytr)) (hdte : dropLabel tTe = .ok (Xte, yte))
    (hner : tTr.rows ≠ []) (hnee : tTe.rows ≠ [])
    (hrun : pipeline oracle fs d = .ok (r, tr)) :
    r.test_accuracy.inUnit ∧ r.train_accuracy.inUnit := by
  obtain ⟨tTr', tTe', Xtr', ytr', Xte', yte', probs, h1, h2, h3, h4, h5, hr, htrace⟩ :=
    pipeline_ok_inv hrun
  rw [htr] at h1
  injection h1 with h1
  subst h1
  rw [hte] at h2
  injection h2 with h2
  subst h2
  rw [hdtr] at h3
  injection h3 with h3
  injection h3 with h3a h3b
  subst h3a
  subst h3b
  rw [hdte] at h4
  injection h4 with h4
  injection h4 with h4a h4b
  subst h4a
  subst h4b
  subst hr
  constructor
  · dsimp only
    refine meanEq_inUnit ?_
    rw [hlen, (dropLabel_lengths hdte).1]
    exact fun h0 => hnee (List.length_eq_zero.mp h0)
  · dsimp only
    refine meanEq_inUnit ?_
    rw [hlen, (dropLabel_lengths hdtr).1]
    exact fun h0 => hner (List.length_eq_zero.mp h0)

/-- Witness for C7 (amended) at the concrete run. -/
theorem accuracies_in_unit_interval_witness :
    (∀ hp X y X2, ((exOracle.fit hp X y).predict X2).length = X2.length) ∧
    exFs (trainPath "d") = some exTrain ∧
    exFs (testPath "d") = some exTest ∧
    dropLabel exTrain = .ok ([[1, 2]], [0]) ∧
    dropLabel exTest = .ok ([[5, 6]], [0]) ∧
    exTrain.rows ≠ [] ∧
    exTest.rows ≠ [] ∧
    pipeline exOracle exFs "d" = .ok (exR, exTrace) ∧
    (exR.test_accuracy.inUnit ∧ exR.train_accuracy.inUnit) :=
  ⟨exOracle_predict_length, by simp [exFs, trainPath], by simp [exFs, testPath], rfl, rfl,
   by decide, by decide, pipeline_exFs_eval,
   accuracies_in_unit_interval exOracle exFs "d" exR exTrace exTrain exTest
     [[1, 2]] [[5, 6]] [0] [0] exOracle_predict_length
     (by simp [exFs, trainPath]) (by simp [exFs, testPath]) rfl rfl
     (by decide) (by decide) pipeline_exFs_eval⟩

/-- Claim C10: for whatever result record a successful run assembles, the
JSON object is emitted as a single line whose four keys always appear in
the fixed insertion order `test_probabilities`, `test_predictions`,
`test_accuracy`, `train_accuracy`, followed by exactly one trailing
newline (assuming the number renderer itself emits no newline, as
Python's float formatting does). -/
theorem emit_single_line_fixed_key_order (nr : ℚ → String) (r : ResultRecord)
    (hnr : ∀ q, noNewline (nr q)) :
    (resultPairs r).map Prod.fst =
      ["test_probabilities", "test_predictions", "test_accuracy", "train_accuracy"] ∧
    emitLine nr r = jsonDumps nr (resultPairs r) ++ "\n" ∧
    noNewline (jsonDumps nr (resultPairs r)) := by
  refine ⟨rfl, rfl, ?_⟩
  unfold jsonDumps
  refine noNewline_append (noNewline_append (by decide) ?_) (by decide)
  refine noNewline_joinSep (by decide) ?_
  intro s hs
  obtain ⟨p, hp, hps⟩ := List.mem_map.mp hs
  subst hps
  refine noNewline_append
    (noNewline_append (noNewline_append (by decide) ?_) (by decide))
    (noNewline_renderJVal hnr p.2)
  simp only [resultPairs, List.mem_cons, List.not_mem_nil, or_false] at hp
  rcases hp with rfl | rfl | rfl | rfl
  · exact (by decide : noNewline "test_probabilities")
  · exact (by decide : noNewline "test_predictions")
  · exact (by decide : noNewline "test_accuracy")
  · exact (by decide : noNewline "train_accuracy")

/-- Witness for C10 at a concrete record and renderer. -/
theorem emit_single_line_fixed_key_order_witness :
    (∀ q : ℚ, noNewline ((fun _ => "0") q)) ∧
    ((resultPairs exR).map Prod.fst =
       ["test_probabilities", "test_predictions", "test_accuracy", "train_accuracy"] ∧
     emitLine (fun _ => "0") exR = jsonDumps (fun _ => "0") (resultPairs exR) ++ "\n" ∧
     noNewline (jsonDumps (fun _ => "0") (resultPairs exR))) :=
  ⟨fun _ => (by decide : noNewline "0"),
   emit_single_line_fixed_key_order (fun _ => "0") exR (fun _ => (by decide : noNewline "0"))⟩
